import Mathlib

/-!
Shallow embedding of the gunge game-loop core (event dispatch + fixed-timestep
clock) and verification of its specification claims.

Source files embedded: `event.py` (Manager, Binder, Handler, bind decorator)
and `clock.py` (Clock).  Python floats are modelled as exact rationals; Python
`None` returns are modelled as `Option.none`; Python exceptions as an explicit
error type.
-/

/-- an error class of the Python exception hierarchy, as far as the embedded
code can raise them.  `keyError` is the only one of the three that derives
from Python's `LookupError`. -/
inductive PyError where
  | keyError
  | valueError
  | typeError
deriving DecidableEq, Repr

/-- whether the error class derives from Python's built-in `LookupError`
(`KeyError` does; `ValueError` and `TypeError` do not). -/
def PyError.isLookup : PyError → Bool
  | .keyError => true
  | .valueError => false
  | .typeError => false

/-- event return codes from `event.py`: `HANDLE_AGAIN = -1`. -/
def HANDLE_AGAIN : Int := -1

/-- event return codes from `event.py`: `HANDLE_STOP = -2`. -/
def HANDLE_STOP : Int := -2

/-- a filter value of `Binder.filter_check`, mirroring the runtime type
dispatch in `event.py` lines 100-110: a `set` value, a routine (function)
value, or any other value compared for equality. -/
inductive FilterValue (V : Type) where
  | set : List V → FilterValue V
  | func : (V → Bool) → FilterValue V
  | other : V → FilterValue V

/-- a pygame event: a type identifier plus named attributes.  Attribute
lookup is total here because every claim under verification only reads
attributes the event carries. -/
structure PyEvent (V : Type) where
  etype : Int
  attrs : String → V

/-- a Python callback as the Binder sees it: its positional arity (what
`inspect.getargspec` reports), its behaviour when called as a free function
`f(event)`, and its behaviour when called as a bound method
`f(instance, event)`.  The returned `Option Int` is the callback's Python
return value (`none` models `None`). -/
structure PyCallback (V : Type) where
  arity : Nat
  retF : PyEvent V → Option Int
  retM : Nat → PyEvent V → Option Int

/-- the `Binder` object of `event.py`: an event type, an attribute filter,
a callback, and (for method callbacks, arity 2) a list of weak instance
references.  A weak reference is modelled by the referent's id together
with an external liveness map: `live i = false` models an expired weakref. -/
structure PyBinder (V : Type) where
  btype : Int
  filter : List (String × FilterValue V)
  func : PyCallback V
  instances : List Nat

/-- `Binder.filter_check` from `event.py` lines 98-112: iterate the filter
items; a set value requires membership, a routine requires the call to
return true, any other value requires equality; the first failure returns
`False`, and the loop falling through returns `True`. -/
def filter_check {V : Type} [DecidableEq V]
    (filt : List (String × FilterValue V)) (event : PyEvent V) : Bool :=
  match filt with
  | [] => true
  | (key, value) :: rest =>
    let event_key := event.attrs key
    match value with
    | .set s => if event_key ∈ s then filter_check rest event else false
    | .func f => if f event_key then filter_check rest event else false
    | .other v => if v = event_key then filter_check rest event else false

/-- `Binder.method_call` from `event.py` lines 114-122: if the filter
matches, prune instances whose weak reference expired, then call the
callback on each remaining instance.  Returns the updated binder, the
invocation log as `(instance id, value the callback returned)` pairs, and
the method's own Python return value, which is `None` (the source has no
return statement). -/
def Binder.method_call {V : Type} [DecidableEq V] (b : PyBinder V)
    (live : Nat → Bool) (event : PyEvent V) :
    PyBinder V × List (Nat × Option Int) × Option Int :=
  if filter_check b.filter event then
    let pruned := b.instances.filter live
    ({ b with instances := pruned },
     pruned.map (fun i => (i, b.func.retM i event)), none)
  else
    (b, [], none)

/-- `Binder.function_call` from `event.py` lines 124-126: if the filter
matches, call the callback on the event.  Returns the invocation log (the
value the callback returned, when invoked) and the method's own Python
return value, which is `None` (no return statement in the source). -/
def Binder.function_call {V : Type} [DecidableEq V] (b : PyBinder V)
    (event : PyEvent V) : List (Option Int) × Option Int :=
  if filter_check b.filter event then
    ([b.func.retF event], none)
  else
    ([], none)

/-- `Binder.__call__` from `event.py` lines 95-96 together with the
dispatch on arity made in `Binder.__init__` (lines 89-93: arity 2 selects
`method_call`, anything else selects `function_call`).  The body is
`self.call(event)` with no return statement, so the value returned to the
caller is `None`.  Result: updated binder, invocation log as
`(some instance id | none for a free call, returned value)` pairs, and the
value `__call__` returns. -/
def Binder.run {V : Type} [DecidableEq V] (b : PyBinder V)
    (live : Nat → Bool) (event : PyEvent V) :
    PyBinder V × List (Option Nat × Option Int) × Option Int :=
  if b.func.arity = 2 then
    let r := Binder.method_call b live event
    (r.1, r.2.1.map (fun p => (some p.1, p.2)), none)
  else
    (b, (Binder.function_call b event).1.map (fun v => ((none : Option Nat), v)), none)

/-- `Handler.kill` from `event.py` lines 144-148, at the level of one
binder: keep exactly the instance references `i` with `i() is not self`,
i.e. drop a reference iff it is live and refers to the killed instance
(an expired reference dereferences to `None`, which `is not self`, so it
is kept). -/
def Handler.killBinder {V : Type} (live : Nat → Bool) (selfId : Nat)
    (b : PyBinder V) : PyBinder V :=
  { b with instances := b.instances.filter (fun i => !(live i && i == selfId)) }

/-- `Handler.__init__` from `event.py` lines 138-142, at the level of one
binder: append a weak reference to the new instance. -/
def Handler.initBinder {V : Type} (selfId : Nat) (b : PyBinder V) : PyBinder V :=
  { b with instances := b.instances ++ [selfId] }

/-- a registered handler as the `Manager` stores it: an identity (so that
`list.remove` comparisons and the invocation log are meaningful), the
declared event type used when `bind`/`unbind` get no explicit type, and
the handler's behaviour when the dispatch loop calls it on an event
(`none` models a Python `None` return). -/
structure MHandler where
  hid : Nat
  mtype : Int
  run : Int → Option Int
deriving Inhabited

/-- Python `list.remove(x)`: remove the first element equal to `x`; raise
`ValueError` when no element is equal. -/
def listRemove (l : List MHandler) (x : MHandler) : Except PyError (List MHandler) :=
  match l with
  | [] => .error .valueError
  | y :: ys =>
    if y.hid = x.hid then .ok ys
    else
      match listRemove ys x with
      | .ok ys2 => .ok (y :: ys2)
      | .error e => .error e

/-- the `Manager` registry of `event.py`: the `handlers` dict mapping an
event type to its ordered handler list, modelled as an association list
(one entry per present key). -/
structure Manager where
  handlers : List (Int × List MHandler)

/-- Python `dict.get(k)` on the `handlers` association list (returns
`none` for an absent key, the semantics of `dict[k]` raising `KeyError`). -/
def Manager.lookup (m : Manager) (t : Int) : Option (List MHandler) :=
  (m.handlers.find? (fun p => p.1 = t)).map (·.2)

/-- update the value stored under a present key of the `handlers` dict. -/
def Manager.store (m : Manager) (t : Int) (l : List MHandler) : Manager :=
  ⟨m.handlers.map (fun p => if p.1 = t then (t, l) else p)⟩

/-- `Manager.bind` from `event.py` lines 34-43: default the event type to
the handler's declared type, create the key's list if absent, and append
the handler. -/
def Manager.bind (m : Manager) (h : MHandler) (event_type : Option Int) : Manager :=
  let t := event_type.getD h.mtype
  match m.lookup t with
  | none => ⟨m.handlers ++ [(t, [h])]⟩
  | some l => m.store t (l ++ [h])

/-- `Manager.unbind` from `event.py` lines 45-51: default the event type
to the handler's declared type, then `self.handlers[event_type]` (raising
`KeyError` for an absent key) followed by `.remove(handler)` (raising
`ValueError` when the handler is not in the list). -/
def Manager.unbind (m : Manager) (h : MHandler) (event_type : Option Int) :
    Except PyError Manager :=
  let t := event_type.getD h.mtype
  match m.lookup t with
  | none => .error .keyError
  | some l =>
    match listRemove l h with
    | .ok l2 => .ok (m.store t l2)
    | .error e => .error e

/-- the inner `for handler in self.handlers.get(event.type, [])` loop of
`Manager.mainloop` (`event.py` lines 63-68) dispatching one event: call
each handler in order; a `HANDLE_STOP` return breaks out of the loop; a
`HANDLE_AGAIN` return executes `events.insert(0, event)` on the pending
list and the loop continues with the next handler.  Returns the updated
pending event list and the log of handler ids invoked for this event. -/
def dispatchHandlers (hs : List MHandler) (event : Int) (events : List Int) :
    List Int × List Nat :=
  match hs with
  | [] => (events, [])
  | h :: rest =>
    let a := h.run event
    if a = some HANDLE_STOP then
      (events, [h.hid])
    else
      let events2 := if a = some HANDLE_AGAIN then event :: events else events
      let r := dispatchHandlers rest event events2
      (r.1, h.hid :: r.2)

/-- `events.pop()` of `Manager.mainloop` line 62: the element removed from
the end of the pending list, i.e. the event dispatched next. -/
def popNext (events : List Int) : Option Int :=
  events.getLast?

/-- the `while not len(events) == 0` loop of `Manager.mainloop` (`event.py`
lines 61-68), fuel-bounded because a handler that keeps returning
`HANDLE_AGAIN` makes it diverge: repeatedly pop the last pending event and
dispatch it through its handler list.  Returns the dispatch log as
`(event type, handler id)` pairs, truncated to `fuel` popped events. -/
def processBatch (hmap : Int → List MHandler) : Nat → List Int → List (Int × Nat)
  | 0, _ => []
  | fuel + 1, events =>
    match popNext events with
    | none => []
    | some event =>
      let r := dispatchHandlers (hmap event) event events.dropLast
      (r.2.map (fun h => (event, h))) ++ processBatch hmap fuel r.1

/-- the arity check of the `bind` decorator, `event.py` lines 160-162:
`ValueError` is raised iff the decorated callable takes more than two
positional arguments; otherwise the `Binder` is constructed and bound. -/
def bindDecoratorCheck (arity : Nat) : Except PyError Unit :=
  if arity > 2 then .error .valueError else .ok ()

/-- calling a Python callable of arity `funcArity` with `nargs` positional
arguments: a mismatch raises `TypeError` at the call site. -/
def pyCall (funcArity nargs : Nat) : Except PyError Unit :=
  if funcArity = nargs then .ok () else .error .typeError

/-- the state of `clock.py`'s `Clock`, with Python floats as exact
rationals.  `time` is the wall-time accumulator, `game_time` the game-time
accumulator, `game_latency` the lag, `clock_time` the last wall-clock
reading, `interpolate` the interpolation factor. -/
structure ClockState where
  started : Bool
  tps : ℚ
  tick : ℚ
  interpolate : ℚ
  clock_time : ℚ
  time : ℚ
  game_time : ℚ
  game_latency : ℚ
  frame_count : ℚ
  frame_rate : ℚ
  average_framerate : ℚ
  since_last_render : ℚ
deriving DecidableEq, Repr

/-- `Clock.__init__` from `clock.py` lines 16-28: record `tps`, set
`tick = 1/tps`, `started = False`, `interpolate = 1.`; the remaining
fields are first assigned in `start`, and are zero-initialised here only
to keep the state total. -/
def Clock.init (tps : ℚ) : ClockState :=
  { started := false
    tps := tps
    tick := 1 / tps
    interpolate := 1
    clock_time := 0
    time := 0
    game_time := 0
    game_latency := 0
    frame_count := 0
    frame_rate := 0
    average_framerate := 0
    since_last_render := 0 }

/-- `Clock.start` from `clock.py` lines 38-57, with `now` the value the
wall clock reads at the call: baseline both wall-clock readings, zero the
accumulators and frame statistics, set `started`. -/
def Clock.start (c : ClockState) (now : ℚ) : ClockState :=
  { c with
    clock_time := now
    since_last_render := now
    time := 0
    game_time := 0
    game_latency := 0
    frame_count := 0
    frame_rate := 0
    average_framerate := 0
    started := true }

/-- `Clock.update` from `clock.py` lines 59-85, with `now` the value the
wall clock reads at the call: an unstarted clock returns immediately
(Python `None`); otherwise the elapsed time is added to `time` and
`game_latency`, and then either a tick is taken (`HANDLE_AGAIN`) when
`game_latency - tick > 0`, or the interpolation factor is set
(`HANDLE_STOP`). -/
def Clock.update (c : ClockState) (now : ℚ) : ClockState × Option Int :=
  if !c.started then
    (c, none)
  else
    let time_passed := now - c.clock_time
    let c1 := { c with
      clock_time := now
      time := c.time + time_passed
      game_latency := c.game_latency + time_passed }
    if c1.game_latency - c1.tick > 0 then
      ({ c1 with
         game_latency := c1.game_latency - c1.tick
         game_time := c1.game_time + c1.tick }, some HANDLE_AGAIN)
    else
      ({ c1 with interpolate := (c1.time - c1.game_time) / c1.tick }, some HANDLE_STOP)

/-- drive `Clock.update` the way the dispatcher's `HANDLE_AGAIN` handling
re-runs it within one frame: invoke `update` at wall-clock reading `now`
and, for as long as it returns `HANDLE_AGAIN`, invoke it again with no
further elapsed time (the wall clock still reads `now`).  Returns the
number of logic ticks taken (the number of `HANDLE_AGAIN` returns) and
the final state.  Fuel-bounded since a stream of `HANDLE_AGAIN` returns
is unbounded in general. -/
def Clock.drain : Nat → ClockState → ℚ → Nat × ClockState
  | 0, c, _ => (0, c)
  | fuel + 1, c, now =>
    let r := Clock.update c now
    if r.2 = some HANDLE_AGAIN then
      let r2 := Clock.drain fuel r.1 now
      (r2.1 + 1, r2.2)
    else
      (0, r.1)

/-- the per-attribute matching rule as the specification words it: an
`ExactValue` requires equality, a `OneOf` set requires membership, a
`Test` function requires the predicate to return true.  Stated separately
from `filter_check` (which is translated from the source) so that the two
can be compared. -/
def specMatches {V : Type} [DecidableEq V] : FilterValue V → V → Prop
  | .set s, x => x ∈ s
  | .func f, x => f x = true
  | .other v, x => v = x

/-- a Clock constructed with `ticks_per_second = 25` and started at
wall-clock reading 0. -/
def clock25 : ClockState := Clock.start (Clock.init 25) 0

/-- `clock25` fed a first wall-clock delta of `0.04`
(wall reading `4/100`), drained through `HANDLE_AGAIN` re-invocations. -/
def drain1 : Nat × ClockState := Clock.drain 5 clock25 (4 / 100)

/-- the state after `drain1` fed a further delta of `0.04`
(wall reading `8/100`). -/
def drain2 : Nat × ClockState := Clock.drain 5 drain1.2 (8 / 100)

/-- the state after `drain2` fed a further delta of `0.1`
(wall reading `18/100`). -/
def drain3 : Nat × ClockState := Clock.drain 5 drain2.2 (18 / 100)

/-- a free callback (arity 1) that returns `HANDLE_STOP` whenever
invoked. -/
def cbStop : PyCallback Int :=
  ⟨1, fun _ => some HANDLE_STOP, fun _ _ => some HANDLE_STOP⟩

/-- a single-target `Binder` on event type 5 with an empty filter whose
only target is the free callback `cbStop`. -/
def binderStop : PyBinder Int := ⟨5, [], cbStop, []⟩

/-- an event of type 5 with all attributes 0. -/
def evFive : PyEvent Int := ⟨5, fun _ => 0⟩

/-- a liveness map under which every weak reference is alive. -/
def liveAll : Nat → Bool := fun _ => true

/-- a method callback (arity 2) whose return value records the instance
it was invoked on. -/
def cbMethod : PyCallback Int :=
  ⟨2, fun _ => none, fun i _ => some (Int.ofNat i)⟩

/-- a method-target `Binder` on event type 5 with an empty filter and two
registered instances, 1 and 2. -/
def binderMethod : PyBinder Int := ⟨5, [], cbMethod, [1, 2]⟩

/-- a free-callback `Binder` whose filter requires attribute `k` to equal
1. -/
def binderK1 : PyBinder Int := ⟨5, [("k", .other 1)], cbStop, []⟩

/-- an event of type 5 whose every attribute is 2, so `binderK1`'s filter
rejects it. -/
def evK2 : PyEvent Int := ⟨5, fun _ => 2⟩

/-- a registered handler for event type 1 that always returns `None`. -/
def h10 : MHandler := ⟨10, 1, fun _ => none⟩

/-- a registered handler for event type 2 that always returns
`HANDLE_AGAIN`. -/
def h20 : MHandler := ⟨20, 2, fun _ => some HANDLE_AGAIN⟩

/-- a registered handler for event type 2 that always returns `None`. -/
def h21 : MHandler := ⟨21, 2, fun _ => none⟩

/-- a registry mapping event type 1 to `[h10]` and event type 2 to
`[h20, h21]`. -/
def hmapEx : Int → List MHandler :=
  fun t => if t = 1 then [h10] else if t = 2 then [h20, h21] else []

/-- a handler with identity 1 declared for event type 5. -/
def hA : MHandler := ⟨1, 5, fun _ => none⟩

/-- a handler with identity 2 declared for event type 5. -/
def hB : MHandler := ⟨2, 5, fun _ => none⟩

/-- a `Manager` whose registry holds exactly `hA` under event type 5. -/
def mEx : Manager := ⟨[(5, [hA])]⟩

/-- lemma about `listRemove`: when no element of the list has the sought
identity it raises `ValueError`, and otherwise it removes exactly the
first element with that identity. -/
theorem listRemove_spec (l : List MHandler) (h : MHandler) :
    ((∀ x ∈ l, x.hid ≠ h.hid) → listRemove l h = .error .valueError)
  ∧ (∀ l₁ x l₂, l = l₁ ++ x :: l₂ → x.hid = h.hid → (∀ y ∈ l₁, y.hid ≠ h.hid) →
      listRemove l h = .ok (l₁ ++ l₂)) := by
  induction l with
  | nil =>
    refine ⟨fun _ => rfl, ?_⟩
    intro l₁ x l₂ heq
    exact absurd heq (by simp)
  | cons a as ih =>
    constructor
    · intro hall
      have ha : ¬(a.hid = h.hid) := hall a (by simp)
      simp only [listRemove, if_neg ha]
      rw [(ih.1 (fun x hx => hall x (by simp [hx])))]
    · intro l₁ x l₂ heq hx hne
      cases l₁ with
      | nil =>
        simp only [List.nil_append] at heq
        cases heq
        simp only [listRemove, if_pos hx, List.nil_append]
      | cons b bs =>
        simp only [List.cons_append, List.cons.injEq] at heq
        obtain ⟨hb, hrest⟩ := heq
        subst hb
        have hbne : ¬(a.hid = h.hid) := hne a (by simp)
        simp only [listRemove, if_neg hbne]
        rw [ih.2 bs x l₂ hrest hx (fun y hy => hne y (by simp [hy]))]
        simp

/-- lemma: for a method binder (arity 2), `Binder.run`'s invocation log is
the live instances mapped to their callback results when the filter
matches, empty otherwise. -/
theorem run_log_method (b : PyBinder Int) (live : Nat → Bool) (ev : PyEvent Int)
    (harity : b.func.arity = 2) :
    (Binder.run b live ev).2.1 =
      if filter_check b.filter ev then
        (b.instances.filter live).map (fun i => (some i, b.func.retM i ev))
      else [] := by
  by_cases hf : filter_check b.filter ev <;>
    simp [Binder.run, harity, Binder.method_call, hf]

/-- lemma: for a method binder (arity 2), `Binder.run` prunes the instance
list to the live instances exactly when the filter matches. -/
theorem run_instances_method (b : PyBinder Int) (live : Nat → Bool) (ev : PyEvent Int)
    (harity : b.func.arity = 2) :
    (Binder.run b live ev).1.instances =
      if filter_check b.filter ev then b.instances.filter live else b.instances := by
  by_cases hf : filter_check b.filter ev <;>
    simp [Binder.run, harity, Binder.method_call, hf]


/-- C1 (code_bug evidence): the source's `Binder.__call__` executes
`self.call(event)` without a `return` statement, so even when the single
target of a matching Binder returns `HANDLE_STOP`, the value the
Dispatcher receives from the Binder's invocation is `None`, not the
target's return value: the log shows the target returned
`some HANDLE_STOP`, yet the invocation's net return value is `none`. -/
theorem c1_binder_return_discarded :
    (Binder.run binderStop liveAll evFive).2.1 = [(none, some HANDLE_STOP)] ∧
    (Binder.run binderStop liveAll evFive).2.2 = none :=
  ⟨rfl, rfl⟩

/-- C2 counterexample: in the batch `[1, 2]` under registry `hmapEx`,
event 2's first handler (id 20) returns `HANDLE_AGAIN`; nevertheless the
further handler 21 registered for that event is invoked in the same pass
(the log of the single-event dispatch is `[20, 21]`), and the reinserted
event goes to the front of the pending list (`[2, 1]`), the position
dispatched last: the full trace dispatches pending event 1 before
reprocessing event 2. -/
theorem c2_counterexample :
    dispatchHandlers (hmapEx 2) 2 [1] = ([2, 1], [20, 21]) ∧
    processBatch hmapEx 3 [1, 2] = [(2, 20), (2, 21), (1, 10), (2, 20), (2, 21)] :=
  ⟨rfl, rfl⟩

/-- C2 (amended): when a handler returns `HANDLE_AGAIN` during dispatch of
an event, the remaining handlers for that event are still invoked in the
same pass, and the event is inserted at the front of the pending batch;
since the dispatch loop pops from the back, the front position is
dispatched after every other pending event, not next. -/
theorem c2_again_semantics (h : MHandler) (hs : List MHandler) (event : Int)
    (events : List Int) (hret : h.run event = some HANDLE_AGAIN) :
    dispatchHandlers (h :: hs) event events =
      ((dispatchHandlers hs event (event :: events)).1,
       h.hid :: (dispatchHandlers hs event (event :: events)).2)
  ∧ (∀ e rest, rest ≠ [] → popNext (e :: rest) = popNext rest) := by
  constructor
  · simp [dispatchHandlers, hret, HANDLE_AGAIN, HANDLE_STOP]
  · intro e rest hne
    cases rest with
    | nil => exact absurd rfl hne
    | cons a as => simp [popNext, List.getLast?_cons_cons]

/-- witness for `c2_again_semantics` at `h20`, `[h21]`, event 2,
pending `[1]`. -/
theorem c2_again_semantics_witness :
    h20.run 2 = some HANDLE_AGAIN ∧
    (dispatchHandlers [h20, h21] 2 [1] =
       ((dispatchHandlers [h21] 2 [2, 1]).1,
        h20.hid :: (dispatchHandlers [h21] 2 [2, 1]).2)
     ∧ (∀ e rest, rest ≠ [] → popNext (e :: rest) = popNext rest)) :=
  ⟨rfl, c2_again_semantics h20 [h21] 2 [1] rfl⟩

/-- C3: `Clock.update` on an unstarted clock changes no state and returns
`None` (continue); on a started clock it adds the elapsed wall time to
both the wall-time accumulator `time` and the lag `game_latency`, and then
either (lag exceeds `tick`) subtracts `tick` from the lag, adds `tick` to
`game_time` and returns `HANDLE_AGAIN`, or (otherwise) sets `interpolate`
to `(time - game_time) / tick` and returns `HANDLE_STOP`. -/
theorem c3_update_cases (c : ClockState) (now : ℚ) :
    (c.started = false → Clock.update c now = (c, none))
  ∧ (c.started = true → c.game_latency + (now - c.clock_time) > c.tick →
      Clock.update c now =
        ({ c with
            clock_time := now
            time := c.time + (now - c.clock_time)
            game_latency := c.game_latency + (now - c.clock_time) - c.tick
            game_time := c.game_time + c.tick }, some HANDLE_AGAIN))
  ∧ (c.started = true → ¬(c.game_latency + (now - c.clock_time) > c.tick) →
      Clock.update c now =
        ({ c with
            clock_time := now
            time := c.time + (now - c.clock_time)
            game_latency := c.game_latency + (now - c.clock_time)
            interpolate := (c.time + (now - c.clock_time) - c.game_time) / c.tick },
         some HANDLE_STOP)) := by
  refine ⟨?_, ?_, ?_⟩
  · intro h1
    simp [Clock.update, h1]
  · intro h1 h2
    simp only [Clock.update, h1, Bool.not_true, Bool.false_eq_true, if_false]
    rw [if_pos (by simp; linarith)]
  · intro h1 h2
    simp only [Clock.update, h1, Bool.not_true, Bool.false_eq_true, if_false]
    rw [if_neg (by simp; linarith)]

/-- witness for `c3_update_cases`: an unstarted clock is left unchanged
with a `None` return. -/
theorem c3_update_witness :
    (Clock.init 25).started = false ∧
    Clock.update (Clock.init 25) 1 = (Clock.init 25, none) :=
  ⟨rfl, (c3_update_cases (Clock.init 25) 1).1 rfl⟩

/-- C4 counterexample: for the started 25-tps clock, the first wall-clock
delta of exactly `0.04` produces zero logic ticks, not exactly one: the
lag reaches exactly `tick_duration` and the source's strict comparison
`game_latency - tick > 0` defers the tick. -/
theorem c4_first_delta_no_tick :
    drain1.1 = 0 ∧ ¬(drain1.1 = 1) := by
  norm_num [drain1, Clock.drain, Clock.update, clock25, Clock.start, Clock.init,
    HANDLE_AGAIN, HANDLE_STOP]

/-- C4 (amended): feeding the started 25-tps clock the wall-clock deltas
`[0.04, 0.04, 0.1]` (re-invoking on each `HANDLE_AGAIN` with zero further
elapsed time) produces 0, 1 and 3 logic ticks respectively, after which
the lag is strictly below `tick_duration`. -/
theorem c4_tick_counts :
    drain1.1 = 0 ∧ drain2.1 = 1 ∧ drain3.1 = 3 ∧
    drain3.2.game_latency < drain3.2.tick := by
  norm_num [drain1, drain2, drain3, Clock.drain, Clock.update, clock25, Clock.start,
    Clock.init, HANDLE_AGAIN, HANDLE_STOP]

/-- C5 counterexample: immediately after an UPDATE invocation that returns
`HANDLE_STOP`, the interpolation factor can be exactly 1, which is outside
the claimed half-open interval `[0, 1)`: a fresh started clock fed a delta
of exactly one tick duration stops with `interpolate = 1`. -/
theorem c5_interp_one :
    (Clock.update clock25 (4 / 100)).2 = some HANDLE_STOP ∧
    (Clock.update clock25 (4 / 100)).1.interpolate = 1 ∧
    ¬((Clock.update clock25 (4 / 100)).1.interpolate < 1) := by
  norm_num [Clock.update, clock25, Clock.start, Clock.init, HANDLE_STOP, HANDLE_AGAIN]

/-- C5 (amended): immediately after an UPDATE invocation that returns
`HANDLE_STOP`, the interpolation factor lies in the closed interval
`[0, 1]`, provided the clock satisfies the latency invariant, the lag
after the elapsed time is nonnegative (the wall clock did not run
backwards past the accumulated lag) and the tick duration is positive. -/
theorem c5_interp_range (c : ClockState) (now : ℚ)
    (hinv : c.game_latency = c.time - c.game_time)
    (hlag : 0 ≤ c.game_latency + (now - c.clock_time))
    (htick : 0 < c.tick)
    (hstop : (Clock.update c now).2 = some HANDLE_STOP) :
    0 ≤ (Clock.update c now).1.interpolate ∧
    (Clock.update c now).1.interpolate ≤ 1 := by
  by_cases h1 : c.started
  · simp only [Clock.update, h1, Bool.not_true, Bool.false_eq_true, if_false] at hstop ⊢
    split at hstop
    · exact absurd hstop (by simp [HANDLE_AGAIN, HANDLE_STOP])
    · rename_i hcond
      rw [if_neg hcond]
      simp only at hcond ⊢
      push_neg at hcond
      constructor
      · apply div_nonneg _ (le_of_lt htick)
        linarith
      · rw [div_le_one htick]
        linarith
  · simp [Clock.update, h1] at hstop

/-- witness for `c5_interp_range` at `clock25` and a delta of `0.02`. -/
theorem c5_interp_range_witness :
    clock25.game_latency = clock25.time - clock25.game_time ∧
    (0 : ℚ) ≤ clock25.game_latency + (1 / 50 - clock25.clock_time) ∧
    (0 : ℚ) < clock25.tick ∧
    (Clock.update clock25 (1 / 50)).2 = some HANDLE_STOP ∧
    (0 ≤ (Clock.update clock25 (1 / 50)).1.interpolate ∧
     (Clock.update clock25 (1 / 50)).1.interpolate ≤ 1) := by
  refine ⟨?h1, ?h2, ?h3, ?h4, ?_⟩
  case h1 => norm_num [clock25, Clock.start, Clock.init]
  case h2 => norm_num [clock25, Clock.start, Clock.init]
  case h3 => norm_num [clock25, Clock.start, Clock.init]
  case h4 => norm_num [Clock.update, clock25, Clock.start, Clock.init, HANDLE_STOP, HANDLE_AGAIN]
  exact c5_interp_range clock25 (1 / 50)
    (by norm_num [clock25, Clock.start, Clock.init])
    (by norm_num [clock25, Clock.start, Clock.init])
    (by norm_num [clock25, Clock.start, Clock.init])
    (by norm_num [Clock.update, clock25, Clock.start, Clock.init, HANDLE_STOP, HANDLE_AGAIN])

/-- C6 counterexample: unbinding a handler that is not registered under a
type that does have other registrations raises `ValueError` (from
`list.remove`), which is not a LookupError-class condition. -/
theorem c6_unbind_valueerror :
    Manager.unbind mEx hB (some 5) = Except.error PyError.valueError ∧
    PyError.isLookup PyError.valueError = false :=
  ⟨rfl, rfl⟩

/-- C6 (amended): `unbind` of a handler not currently registered fails
with an error surfaced to the caller — `KeyError` (a LookupError) when the
type has no registration list at all, `ValueError` (not a LookupError)
when the type's list exists but does not contain the handler; when the
handler is registered, `unbind` removes exactly the first registration
with that identity. -/
theorem c6_unbind_spec (m : Manager) (h : MHandler) (t : Int) :
    (m.lookup t = none → Manager.unbind m h (some t) = .error .keyError)
  ∧ (∀ l, m.lookup t = some l → (∀ x ∈ l, x.hid ≠ h.hid) →
      Manager.unbind m h (some t) = .error .valueError)
  ∧ (∀ l l₁ x l₂, m.lookup t = some l → l = l₁ ++ x :: l₂ → x.hid = h.hid →
      (∀ y ∈ l₁, y.hid ≠ h.hid) →
      Manager.unbind m h (some t) = .ok (m.store t (l₁ ++ l₂))) := by
  refine ⟨?_, ?_, ?_⟩
  · intro hn
    simp [Manager.unbind, hn]
  · intro l hl hall
    simp only [Manager.unbind, Option.getD_some, hl]
    rw [(listRemove_spec l h).1 hall]
  · intro l l₁ x l₂ hl heq hx hne
    simp only [Manager.unbind, Option.getD_some, hl]
    rw [(listRemove_spec l h).2 l₁ x l₂ heq hx hne]

/-- witness for `c6_unbind_spec`: removing the one registration of `hA`
from `mEx` succeeds and empties type 5's list. -/
theorem c6_unbind_spec_witness :
    mEx.lookup 5 = some [hA] ∧ ([hA] : List MHandler) = [] ++ hA :: [] ∧ hA.hid = hA.hid ∧
    Manager.unbind mEx hA (some 5) = .ok (mEx.store 5 ([] ++ [])) :=
  ⟨rfl, rfl, rfl,
   (c6_unbind_spec mEx hA 5).2.2 [hA] [] hA [] rfl rfl rfl (by simp)⟩

/-- C7: after `kill` (revoke) of instance `s`, no invocation of the binder
dispatches to `s`; every other instance is invoked exactly as before (the
binder itself, with its type, filter and callback intact, keeps serving
them); and an instance whose weak reference expired without revoking is
never invoked and is pruned from the binder on the next matching
dispatch. -/
theorem c7_kill_semantics (b : PyBinder Int) (live : Nat → Bool) (s : Nat)
    (ev : PyEvent Int) (harity : b.func.arity = 2) :
    (∀ p ∈ (Binder.run (Handler.killBinder live s b) live ev).2.1, p.1 ≠ some s)
  ∧ (∀ i, i ≠ s →
      ((some i, b.func.retM i ev) ∈ (Binder.run (Handler.killBinder live s b) live ev).2.1 ↔
       (some i, b.func.retM i ev) ∈ (Binder.run b live ev).2.1))
  ∧ (∀ i, live i = false →
      (∀ p ∈ (Binder.run b live ev).2.1, p.1 ≠ some i)
    ∧ (filter_check b.filter ev = true → i ∉ (Binder.run b live ev).1.instances)) := by
  have hka : (Handler.killBinder live s b).func.arity = 2 := harity
  have hkf : (Handler.killBinder live s b).filter = b.filter := rfl
  have hki : (Handler.killBinder live s b).instances =
      b.instances.filter (fun i => !(live i && i == s)) := rfl
  have hkr : (Handler.killBinder live s b).func.retM = b.func.retM := rfl
  have hlogk := run_log_method (Handler.killBinder live s b) live ev hka
  rw [hkf, hki, hkr] at hlogk
  have hlog := run_log_method b live ev harity
  have hinst := run_instances_method b live ev harity
  refine ⟨?_, ?_, ?_⟩
  · intro p hp
    rw [hlogk] at hp
    by_cases hf : filter_check b.filter ev
    · rw [if_pos hf] at hp
      simp only [List.mem_map, List.mem_filter] at hp
      obtain ⟨j, ⟨⟨hjmem, hjkeep⟩, hjlive⟩, hjeq⟩ := hp
      intro hps
      rw [← hjeq] at hps
      simp only [Option.some.injEq] at hps
      subst hps
      simp [hjlive] at hjkeep
    · rw [if_neg hf] at hp
      exact absurd hp (List.not_mem_nil p)
  · intro i hi
    rw [hlogk, hlog]
    by_cases hf : filter_check b.filter ev
    · rw [if_pos hf, if_pos hf]
      simp only [List.mem_map, List.mem_filter, Prod.mk.injEq, Option.some.injEq]
      constructor
      · rintro ⟨j, ⟨⟨hjmem, hjkeep⟩, hjlive⟩, hjeq, hjret⟩
        exact ⟨j, ⟨hjmem, hjlive⟩, hjeq, hjret⟩
      · rintro ⟨j, ⟨hjmem, hjlive⟩, hjeq, hjret⟩
        refine ⟨j, ⟨⟨hjmem, ?_⟩, hjlive⟩, hjeq, hjret⟩
        subst hjeq
        simp [hi]
    · rw [if_neg hf, if_neg hf]
  · intro i hdead
    constructor
    · intro p hp
      rw [hlog] at hp
      by_cases hf : filter_check b.filter ev
      · rw [if_pos hf] at hp
        simp only [List.mem_map, List.mem_filter] at hp
        obtain ⟨j, ⟨hjmem, hjlive⟩, hjeq⟩ := hp
        intro hps
        rw [← hjeq] at hps
        simp only [Option.some.injEq] at hps
        subst hps
        rw [hdead] at hjlive
        exact Bool.false_ne_true hjlive
      · rw [if_neg hf] at hp
        exact absurd hp (List.not_mem_nil p)
    · intro hft
      rw [hinst, if_pos (by rw [hft])]
      simp only [List.mem_filter, not_and]
      intro _ hlive
      rw [hdead] at hlive
      exact Bool.false_ne_true hlive

/-- witness for `c7_kill_semantics`: after killing instance 2 of
`binderMethod`, no invocation dispatches to instance 2. -/
theorem c7_kill_witness :
    binderMethod.func.arity = 2 ∧
    (∀ p ∈ (Binder.run (Handler.killBinder liveAll 2 binderMethod) liveAll evFive).2.1,
       p.1 ≠ some 2) :=
  ⟨rfl, (c7_kill_semantics binderMethod liveAll 2 evFive rfl).1⟩

/-- C8: `filter_check` succeeds iff every filter entry's predicate holds
against the event's corresponding attribute (set values require
membership, function values require the predicate to return true, other
values require equality); the empty filter matches every event; and on a
non-match no target of the binder is invoked and the binder is left
unchanged. -/
theorem c8_filter_semantics {V : Type} [DecidableEq V]
    (filt : List (String × FilterValue V)) (ev : PyEvent V)
    (b : PyBinder V) (live : Nat → Bool) :
    (filter_check filt ev = true ↔ ∀ p ∈ filt, specMatches p.2 (ev.attrs p.1))
  ∧ filter_check ([] : List (String × FilterValue V)) ev = true
  ∧ (filter_check b.filter ev = false →
      (Binder.run b live ev).2.1 = [] ∧ (Binder.run b live ev).1 = b) := by
  refine ⟨?_, rfl, ?_⟩
  · induction filt with
    | nil => simp [filter_check]
    | cons p rest ih =>
      obtain ⟨k, v⟩ := p
      cases v with
      | set s =>
        by_cases hm : ev.attrs k ∈ s
        · simp [filter_check, hm, ih, specMatches]
        · simp [filter_check, hm, specMatches]
      | func f =>
        by_cases hf : f (ev.attrs k) = true
        · simp [filter_check, hf, ih, specMatches]
        · simp [filter_check, hf, specMatches]
      | other v =>
        by_cases hv : v = ev.attrs k
        · simp [filter_check, hv, ih, specMatches]
        · simp [filter_check, hv, specMatches]
  · intro hf
    by_cases ha : b.func.arity = 2 <;>
      simp [Binder.run, Binder.method_call, Binder.function_call, ha, hf]

/-- witness for `c8_filter_semantics`: `binderK1`'s filter rejects `evK2`,
so no target is invoked and the binder is unchanged. -/
theorem c8_filter_witness :
    filter_check binderK1.filter evK2 = false ∧
    ((Binder.run binderK1 liveAll evK2).2.1 = [] ∧
     (Binder.run binderK1 liveAll evK2).1 = binderK1) :=
  ⟨rfl, (c8_filter_semantics binderK1.filter evK2 binderK1 liveAll).2.2 rfl⟩

/-- C9 counterexample: a callable of arity 0 — which is neither `(event)`
nor `(self, event)` — passes the `bind` decorator's construction-time
check without an error; the mismatch only surfaces as a `TypeError` when
the callback is invoked with the event at dispatch time. -/
theorem c9_zero_arity_accepted :
    bindDecoratorCheck 0 = Except.ok () ∧ ¬((0 : Nat) = 1 ∨ (0 : Nat) = 2) ∧
    pyCall 0 1 = Except.error PyError.typeError :=
  ⟨rfl, by decide, rfl⟩

/-- C9 (amended): the `bind` decorator raises `ValueError` at
binding-declaration time exactly for callables with more than two
positional parameters; any arity up to two (including zero) is accepted at
construction, and a zero-arity callable fails only at dispatch time with a
`TypeError`. -/
theorem c9_arity_check (n : Nat) :
    (bindDecoratorCheck n = Except.error PyError.valueError ↔ n > 2)
  ∧ (n ≤ 2 → bindDecoratorCheck n = Except.ok ())
  ∧ (n = 0 → bindDecoratorCheck n = Except.ok () ∧
       pyCall n 1 = Except.error PyError.typeError) := by
  unfold bindDecoratorCheck pyCall
  refine ⟨?_, ?_, ?_⟩
  · split <;> simp_all
  · intro h
    rw [if_neg (by omega)]
  · intro h
    subst h
    exact ⟨rfl, rfl⟩

/-- witness for `c9_arity_check` at arity 0. -/
theorem c9_arity_witness :
    (0 : Nat) ≤ 2 ∧
    (bindDecoratorCheck 0 = Except.ok () ∧ pyCall 0 1 = Except.error PyError.typeError) :=
  ⟨by decide, (c9_arity_check 0).2.2 rfl⟩

/-- C10: the equality `game_latency = time - game_time` is established by
`Clock.start` and preserved by every `Clock.update` invocation (in both
the `HANDLE_AGAIN` and the `HANDLE_STOP` branch, and trivially when
unstarted); consequently the interpolation factor assigned on
`HANDLE_STOP` equals `game_latency / tick`. -/
theorem c10_latency_invariant (c : ClockState) (now s : ℚ)
    (hinv : c.game_latency = c.time - c.game_time) :
    ((Clock.start c s).game_latency =
       (Clock.start c s).time - (Clock.start c s).game_time)
  ∧ ((Clock.update c now).1.game_latency =
       (Clock.update c now).1.time - (Clock.update c now).1.game_time)
  ∧ ((Clock.update c now).2 = some HANDLE_STOP →
       (Clock.update c now).1.interpolate =
         (Clock.update c now).1.game_latency / c.tick) := by
  refine ⟨by simp [Clock.start], ?_, ?_⟩
  · by_cases h1 : c.started
    · simp only [Clock.update, h1, Bool.not_true, Bool.false_eq_true, if_false]
      split
      · simp only
        linarith
      · simp only
        linarith
    · simp only [Clock.update, h1]
      simp [hinv]
  · intro hstop
    by_cases h1 : c.started
    · simp only [Clock.update, h1, Bool.not_true, Bool.false_eq_true, if_false] at hstop ⊢
      split at hstop
      · exact absurd hstop (by simp [HANDLE_AGAIN, HANDLE_STOP])
      · rename_i hcond
        rw [if_neg hcond]
        simp only
        congr 1
        linarith
    · simp [Clock.update, h1] at hstop

/-- witness for `c10_latency_invariant` at the freshly started clock. -/
theorem c10_latency_witness :
    clock25.game_latency = clock25.time - clock25.game_time ∧
    ((Clock.update clock25 1).2 = some HANDLE_STOP →
      (Clock.update clock25 1).1.interpolate =
        (Clock.update clock25 1).1.game_latency / clock25.tick) :=
  ⟨by norm_num [clock25, Clock.start, Clock.init],
   (c10_latency_invariant clock25 1 0
     (by norm_num [clock25, Clock.start, Clock.init])).2.2⟩
